import Mathlib

/-!
Shallow embedding of the athlete-load-monitoring feature pipeline
(src/preprocess.py, src/features.py, src/reporting.py).

Tables are lists of records; a pandas NaN cell is modelled as `none`
(missing values propagate through arithmetic exactly as NaN does, and
comparisons against a missing value are false).  Float arithmetic is
modelled exactly over the rationals, and the z-score over the reals.
Dates are day numbers, already parsed; a cell whose raw text failed
to parse as a date is `none` (the result of to_datetime with coerce).
-/

namespace AthleteLoad

/-- Ordering key used by sort_values over (player_id, date): strings
compare lexicographically by character code, dates numerically. -/
def pdLE (a b : String × Nat) : Prop :=
  a.1.data < b.1.data ∨ (a.1.data = b.1.data ∧ a.2 ≤ b.2)

instance pdLEDec (a b : String × Nat) : Decidable (pdLE a b) :=
  inferInstanceAs (Decidable (a.1.data < b.1.data ∨ (a.1.data = b.1.data ∧ a.2 ≤ b.2)))

/-- sort_values by (player_id, date) ascending. -/
def sortTable {α : Type} (key : α → String × Nat) (l : List α) : List α :=
  @List.insertionSort α (fun a b => pdLE (key a) (key b))
    (fun a b => pdLEDec (key a) (key b)) l

/-- A cleaned session row (output schema of prep_sessions). -/
structure SessRow where
  player_id : String
  date : Nat
  minutes : Option ℚ
  sRPE : Option ℚ
  external_load : Option ℚ
  total_accels : Option ℚ
  jump_count : Option ℚ
  internal_load : Option ℚ
  deriving DecidableEq

/-- A raw session row after the date parse attempt and numeric coercion:
the date is none when unparseable, numeric cells are none when non-numeric. -/
structure RawSessRow where
  player_id : String
  date : Option Nat
  minutes : Option ℚ
  sRPE : Option ℚ
  external_load : Option ℚ
  total_accels : Option ℚ
  jump_count : Option ℚ
  deriving DecidableEq

def dfltSess : SessRow :=
  { player_id := "", date := 0, minutes := none, sRPE := none,
    external_load := none, total_accels := none, jump_count := none,
    internal_load := none }

def sessKeyOf (r : SessRow) : String × Nat := (r.player_id, r.date)

def sortSessions (l : List SessRow) : List SessRow := sortTable sessKeyOf l

/-- prep_sessions: hard-fail if any date failed to parse, derive
internal_load = minutes * sRPE (missing if either operand missing),
sort by (player_id, date). -/
def prep_sessions (raw : List RawSessRow) : Except String (List SessRow) :=
  if raw.all (fun r => r.date.isSome) then
    Except.ok (sortSessions (raw.filterMap (fun r =>
      r.date.map (fun d =>
        { player_id := r.player_id, date := d, minutes := r.minutes,
          sRPE := r.sRPE, external_load := r.external_load,
          total_accels := r.total_accels, jump_count := r.jump_count,
          internal_load := do
            let m ← r.minutes
            let s ← r.sRPE
            pure (m * s) }))))
  else Except.error "Failed to parse some dates in column date."

/-- One cell of the pandas rolling sum: vals is the series of this
player up to and including the current row; the window is the last w
entries, the sum skips missing entries, and the cell is missing when
fewer than min_periods non-missing observations are in the window. -/
def windowSum (vals : List (Option ℚ)) (w minp : Nat) : Option ℚ :=
  if ((vals.drop (vals.length - w)).filterMap id).length < minp then none
  else some ((vals.drop (vals.length - w)).filterMap id).sum

/-- compute_rolling_load: sort by (player_id, date), then for every row
and every configured window produce the grouped rolling sum of
internal_load over that player.  Each output row carries the input row
and the association list from window size to rolling value. -/
def compute_rolling_load (sessions : List SessRow) (windows : List Nat)
    (min_periods : Nat) : List (SessRow × List (Nat × Option ℚ)) :=
  let s := sortSessions sessions
  s.enum.map (fun ir =>
    let prior := ((s.take (ir.1 + 1)).filter
        (fun x => x.player_id = ir.2.player_id)).map (fun x => x.internal_load)
    (ir.2, windows.map (fun w => (w, windowSum prior w min_periods))))

def dfltRoll : SessRow × List (Nat × Option ℚ) := (dfltSess, [])

/-- Spec reading of the rolling cell: the sum of the at-most-w most
recent of the given loads (the loads of the player in ascending date
order up to and including the current row), missing rather than zero
when fewer than the minimum number of observations are available. -/
def mostRecentSum (loads : List ℚ) (w minp : Nat) : Option ℚ :=
  if (loads.reverse.take w).length < minp then none
  else some (loads.reverse.take w).sum

/-- Spec reading of which loads feed the rolling cell at global row i of
the sorted table: the rows of that same player among the first i+1
sorted rows, i.e. the first k rows of the player where k counts the
player rows in the prefix, with their internal_load values. -/
def playerPrefixLoads (s : List SessRow) (i : Nat) : List ℚ :=
  let pid := (s.getD i dfltSess).player_id
  ((s.filter (fun x => x.player_id = pid)).take
      ((s.take (i + 1)).countP (fun x => x.player_id = pid))).filterMap
    (fun x => x.internal_load)

/-- A cleaned wellness row (output schema of prep_wellness). -/
structure WellRow where
  player_id : String
  date : Nat
  sleep_hours : Option ℚ
  sleep_quality : Option ℚ
  soreness : Option ℚ
  fatigue : Option ℚ
  stress : Option ℚ
  mood : Option ℚ
  deriving DecidableEq

/-- A raw wellness row after the date parse attempt and numeric coercion. -/
structure RawWellRow where
  player_id : String
  date : Option Nat
  sleep_hours : Option ℚ
  sleep_quality : Option ℚ
  soreness : Option ℚ
  fatigue : Option ℚ
  stress : Option ℚ
  mood : Option ℚ
  deriving DecidableEq

def dfltWell : WellRow :=
  { player_id := "", date := 0, sleep_hours := none, sleep_quality := none,
    soreness := none, fatigue := none, stress := none, mood := none }

def wellKeyOf (r : WellRow) : String × Nat := (r.player_id, r.date)

def sortWellness (l : List WellRow) : List WellRow := sortTable wellKeyOf l

/-- Forward fill of the numeric wellness columns within each player:
each cell becomes the last non-missing value of that column among the
rows of that player up to and including the current one. -/
def ffillWellness (s : List WellRow) : List WellRow :=
  s.enum.map (fun ir =>
    let r := ir.2
    let pri := (s.take (ir.1 + 1)).filter (fun x => x.player_id = r.player_id)
    { r with
      sleep_hours := (pri.filterMap (fun x => x.sleep_hours)).getLast?
      sleep_quality := (pri.filterMap (fun x => x.sleep_quality)).getLast?
      soreness := (pri.filterMap (fun x => x.soreness)).getLast?
      fatigue := (pri.filterMap (fun x => x.fatigue)).getLast?
      stress := (pri.filterMap (fun x => x.stress)).getLast?
      mood := (pri.filterMap (fun x => x.mood)).getLast? })

/-- Backward fill within each player: the next non-missing value of the
column among the rows of the player from the current one on. -/
def bfillWellness (s : List WellRow) : List WellRow :=
  s.enum.map (fun ir =>
    let r := ir.2
    let suf := (s.drop ir.1).filter (fun x => x.player_id = r.player_id)
    { r with
      sleep_hours := (suf.filterMap (fun x => x.sleep_hours)).head?
      sleep_quality := (suf.filterMap (fun x => x.sleep_quality)).head?
      soreness := (suf.filterMap (fun x => x.soreness)).head?
      fatigue := (suf.filterMap (fun x => x.fatigue)).head?
      stress := (suf.filterMap (fun x => x.stress)).head?
      mood := (suf.filterMap (fun x => x.mood)).head? })

/-- prep_wellness: hard-fail if any date failed to parse, sort by
(player_id, date), then apply the fill policy; an unrecognized
fill_method is rejected. -/
def prep_wellness (raw : List RawWellRow) (fill_method : String) :
    Except String (List WellRow) :=
  if raw.all (fun r => r.date.isSome) then
    let sorted := sortWellness (raw.filterMap (fun r =>
      r.date.map (fun d =>
        { player_id := r.player_id, date := d, sleep_hours := r.sleep_hours,
          sleep_quality := r.sleep_quality, soreness := r.soreness,
          fatigue := r.fatigue, stress := r.stress, mood := r.mood })))
    if fill_method = "ffill" then Except.ok (ffillWellness sorted)
    else if fill_method = "bfill" then Except.ok (bfillWellness sorted)
    else if fill_method = "none" then Except.ok sorted
    else Except.error "fill_method must be one of: ffill, bfill, none"
  else Except.error "Failed to parse some dates in column date."

/-- readiness_raw = sleep_quality + mood - soreness - fatigue - stress,
missing if any input is missing. -/
def readinessRaw (r : WellRow) : Option ℚ := do
  let sq ← r.sleep_quality
  let md ← r.mood
  let so ← r.soreness
  let fa ← r.fatigue
  let st ← r.stress
  pure (sq + md - so - fa - st)

/-- Mean of a float series over its values (pandas mean skips NaN, the
callers pass the already-extracted non-missing values). -/
def qMean (l : List ℚ) : ℚ := l.sum / l.length

/-- Population variance, divisor N (std with ddof zero, squared). -/
def qVar (l : List ℚ) : ℚ := (l.map (fun x => (x - qMean l) ^ 2)).sum / l.length

/-- The non-missing readiness_raw values of one player, in table order:
this is the series over which the groupby z-score computes its mean and
standard deviation. -/
def playerRaws (w : List WellRow) (p : String) : List ℚ :=
  (w.filter (fun r => r.player_id = p)).filterMap readinessRaw

/-- The zscore helper of compute_readiness_score applied to one cell:
if the standard deviation of the group is zero or undefined (no
observations at all), the series is multiplied by zero, which keeps a
missing cell missing; otherwise the cell is standardized by the group
mean and the population standard deviation. -/
noncomputable def zscoreVal (raws : List ℚ) (x : Option ℚ) : Option ℝ :=
  if raws = [] ∨ qVar raws = 0 then x.map (fun v => (Rat.cast v : ℝ) * 0)
  else x.map (fun v =>
    ((Rat.cast v : ℝ) - ((qMean raws : ℚ) : ℝ)) / Real.sqrt ((qVar raws : ℚ) : ℝ))

/-- An output row of compute_readiness_score. -/
structure ScoredRow extends WellRow where
  readiness_raw : Option ℚ
  readiness_score : Option ℝ

def dfltScored : ScoredRow :=
  { player_id := "", date := 0, sleep_hours := none, sleep_quality := none,
    soreness := none, fatigue := none, stress := none, mood := none,
    readiness_raw := none, readiness_score := none }

/-- Body of compute_readiness_score: derive readiness_raw per row and,
when standardization is requested, z-score it within each player. -/
noncomputable def scoreRows (w : List WellRow) (standardize_within_player : Bool) :
    List ScoredRow :=
  w.map (fun r =>
    { toWellRow := r
      readiness_raw := readinessRaw r
      readiness_score :=
        if standardize_within_player then
          zscoreVal (playerRaws w r.player_id) (readinessRaw r)
        else (readinessRaw r).map Rat.cast })

/-- compute_readiness_score: only the simple method exists; anything else
is rejected before any computation. -/
noncomputable def compute_readiness_score (w : List WellRow) (method : String)
    (standardize_within_player : Bool) : Except String (List ScoredRow) :=
  if method ≠ "simple" then
    Except.error "Only method simple is implemented in the starter version."
  else Except.ok (scoreRows w standardize_within_player)

/-- Mean over the reals. -/
noncomputable def rMean (l : List ℝ) : ℝ := l.sum / l.length

/-- Population variance over the reals. -/
noncomputable def rVar (l : List ℝ) : ℝ := (l.map (fun x => (x - rMean l) ^ 2)).sum / l.length

/-- The non-missing readiness scores of one player in an output table. -/
def scoresOf (out : List ScoredRow) (p : String) : List ℝ :=
  (out.filter (fun r => r.player_id = p)).filterMap (fun r => r.readiness_score)

def rCast (l : List ℚ) : List ℝ := l.map Rat.cast

/-- A player reference row. -/
structure PlayerRow where
  player_id : String
  player_name : String
  position : String
  status : String
  deriving DecidableEq

/-- A merged daily row: session fields, left-joined wellness fields, and
left-joined player identity fields (missing when the player_id has no
match in the reference table). -/
structure DailyRow where
  player_id : String
  date : Nat
  internal_load : Option ℚ
  sleep_hours : Option ℚ
  sleep_quality : Option ℚ
  soreness : Option ℚ
  fatigue : Option ℚ
  stress : Option ℚ
  mood : Option ℚ
  player_name : Option String
  position : Option String
  status : Option String
  deriving DecidableEq

def dfltDaily : DailyRow :=
  { player_id := "", date := 0, internal_load := none, sleep_hours := none,
    sleep_quality := none, soreness := none, fatigue := none, stress := none,
    mood := none, player_name := none, position := none, status := none }

/-- One merged daily row: the wellness fields come from the unique
matching wellness row of the same (player_id, date) if any, the player
fields from the unique matching reference row if any. -/
def mergeRow (players : List PlayerRow) (wellness : List WellRow)
    (s : SessRow) : DailyRow :=
  let w := wellness.find? (fun x => x.player_id = s.player_id ∧ x.date = s.date)
  let p := players.find? (fun x => x.player_id = s.player_id)
  { player_id := s.player_id, date := s.date,
    internal_load := s.internal_load,
    sleep_hours := w.bind (fun x => x.sleep_hours),
    sleep_quality := w.bind (fun x => x.sleep_quality),
    soreness := w.bind (fun x => x.soreness),
    fatigue := w.bind (fun x => x.fatigue),
    stress := w.bind (fun x => x.stress),
    mood := w.bind (fun x => x.mood),
    player_name := p.map (fun x => x.player_name),
    position := p.map (fun x => x.position),
    status := p.map (fun x => x.status) }

/-- The table merge_daily produces when no uniqueness check fires:
left join of wellness onto sessions on (player_id, date), then left
join of the player reference on player_id, sorted by (player_id, date). -/
def mergeRows (players : List PlayerRow) (sessions : List SessRow)
    (wellness : List WellRow) : List DailyRow :=
  sortTable (fun r => (r.player_id, r.date))
    (sessions.map (mergeRow players wellness))

/-- merge_daily: the session-wellness merge validates one_to_one (both
sides must have unique (player_id, date) keys) and the player merge
validates many_to_one (the reference side must have unique player_id);
a duplicate key raises, nothing else does. -/
def merge_daily (players : List PlayerRow) (sessions : List SessRow)
    (wellness : List WellRow) : Except String (List DailyRow) :=
  if ¬ (sessions.map sessKeyOf).Nodup then
    Except.error "MergeError: merge keys are not unique in left dataset; not a one-to-one merge"
  else if ¬ (wellness.map wellKeyOf).Nodup then
    Except.error "MergeError: merge keys are not unique in right dataset; not a one-to-one merge"
  else if ¬ (players.map (fun p => p.player_id)).Nodup then
    Except.error "MergeError: merge keys are not unique in right dataset; not a many-to-one merge"
  else Except.ok (mergeRows players sessions wellness)

def isErr {α : Type} (e : Except String α) : Bool :=
  match e with
  | Except.error _ => true
  | Except.ok _ => false

/-- A float value as produced by pct_change: possibly NaN (from a
missing operand or 0/0) or an infinity (from division by zero). -/
inductive Flt where
  | nan : Flt
  | posinf : Flt
  | neginf : Flt
  | val : ℚ → Flt
  deriving DecidableEq

/-- Float computation of (cur - prev) / prev: NaN if either operand is
missing or both are zero, a signed infinity when only prev is zero. -/
def pctChange (prev cur : Option ℚ) : Flt :=
  match prev, cur with
  | some p, some c =>
    if p = 0 then
      (if c = 0 then Flt.nan else if 0 < c then Flt.posinf else Flt.neginf)
    else Flt.val ((c - p) / p)
  | _, _ => Flt.nan

/-- Float strict comparison against a finite threshold: NaN compares
false, positive infinity exceeds every threshold. -/
def fltGt (f : Flt) (t : ℚ) : Bool :=
  match f with
  | Flt.nan => false
  | Flt.posinf => true
  | Flt.neginf => false
  | Flt.val q => decide (t < q)

/-- What it means, in the words of the spec, for the percent change to
strictly exceed the threshold. -/
def exceedsThreshold (f : Flt) (t : ℚ) : Prop :=
  f = Flt.posinf ∨ ∃ q : ℚ, f = Flt.val q ∧ t < q

/-- An input row of add_simple_flags: the two configurable source
columns (the rolling-load column and the readiness column) next to the
keys, both possibly missing. -/
structure FlagInRow where
  player_id : String
  date : Nat
  load : Option ℚ
  readiness_score : Option ℚ
  deriving DecidableEq

def dfltFlagIn : FlagInRow :=
  { player_id := "", date := 0, load := none, readiness_score := none }

/-- An output row of add_simple_flags. -/
structure FlagRow where
  player_id : String
  date : Nat
  load : Option ℚ
  readiness_score : Option ℚ
  load_pct_change : Flt
  flag_load_spike : Bool
  flag_low_readiness : Bool
  deriving DecidableEq

def dfltFlag : FlagRow :=
  { player_id := "", date := 0, load := none, readiness_score := none,
    load_pct_change := Flt.nan, flag_load_spike := false,
    flag_low_readiness := false }

def sortFlagIn (l : List FlagInRow) : List FlagInRow :=
  sortTable (fun r => (r.player_id, r.date)) l

/-- add_simple_flags: sort by (player_id, date), compute the grouped
percent change of the load column, then threshold it and the readiness
column; a comparison against a missing value is false, so the flags are
always plain booleans. -/
def add_simple_flags (daily : List FlagInRow) (load_spike_pct : ℚ)
    (readiness_z_thresh : ℚ) : List FlagRow :=
  let s := sortFlagIn daily
  s.enum.map (fun ir =>
    let r := ir.2
    let prior := (s.take ir.1).filter (fun x => x.player_id = r.player_id)
    let pc :=
      match prior.getLast? with
      | none => Flt.nan
      | some q => pctChange q.load r.load
    { player_id := r.player_id, date := r.date, load := r.load,
      readiness_score := r.readiness_score,
      load_pct_change := pc,
      flag_load_spike := fltGt pc load_spike_pct,
      flag_low_readiness :=
        match r.readiness_score with
        | none => false
        | some v => decide (v < readiness_z_thresh) })

/-- The rows of the same player strictly before position i of the
sorted daily table: the percent change source of row i. -/
def flagPrior (daily : List FlagInRow) (i : Nat) : List FlagInRow :=
  ((sortFlagIn daily).take i).filter
    (fun x => x.player_id = ((sortFlagIn daily).getD i dfltFlagIn).player_id)

/-- The load_pct_change cell of row i: NaN on the first row of the
player, otherwise the float percent change from the immediately
preceding row of that player. -/
def flagPC (daily : List FlagInRow) (i : Nat) : Flt :=
  match (flagPrior daily i).getLast? with
  | none => Flt.nan
  | some q => pctChange q.load ((sortFlagIn daily).getD i dfltFlagIn).load

/-- A daily row as consumed by make_team_daily_table: the raw load and
the two rolling-load columns of the default windows. -/
structure TeamRow where
  player_id : String
  date : Nat
  internal_load : Option ℚ
  internal_load_7d : Option ℚ
  internal_load_28d : Option ℚ
  deriving DecidableEq

/-- Descending float sort order with missing values last (the
sort_values default na_position): a row may come before another when
its key is at least as large, or when the other key is missing. -/
def optDescLE (a b : Option ℚ) : Prop :=
  match a, b with
  | some x, some y => y ≤ x
  | some _, none => True
  | none, some _ => False
  | none, none => True

instance optDescLEDec (a b : Option ℚ) : Decidable (optDescLE a b) :=
  match a, b with
  | some x, some y => inferInstanceAs (Decidable (y ≤ x))
  | some _, none => inferInstanceAs (Decidable True)
  | none, some _ => inferInstanceAs (Decidable False)
  | none, none => inferInstanceAs (Decidable True)

/-- The sort key make_team_daily_table uses: the internal_load_7d
column when the table has it, otherwise the raw internal_load. -/
def teamKey (has7d : Bool) (r : TeamRow) : Option ℚ :=
  if has7d then r.internal_load_7d else r.internal_load

def teamLE (has7d : Bool) (a b : TeamRow) : Prop :=
  optDescLE (teamKey has7d a) (teamKey has7d b)

instance teamLEDec (has7d : Bool) (a b : TeamRow) : Decidable (teamLE has7d a b) :=
  inferInstanceAs (Decidable (optDescLE (teamKey has7d a) (teamKey has7d b)))

/-- make_team_daily_table: keep the rows of the snapshot date and sort
them descending by internal_load_7d when that column exists, else by
internal_load.  has7d records whether the internal_load_7d column is
present in the frame. -/
def make_team_daily_table (has7d : Bool) (daily : List TeamRow)
    (snapshot_date : Nat) : List TeamRow :=
  @List.insertionSort TeamRow (teamLE has7d) (teamLEDec has7d)
    (daily.filter (fun r => r.date = snapshot_date))

/-- Elementwise float comparison x < c over a column: false on missing. -/
def oLt (x : Option ℚ) (c : ℚ) : Bool :=
  match x with
  | some v => decide (v < c)
  | none => false

/-- Elementwise float comparison x > c over a column: false on missing. -/
def oGt (x : Option ℚ) (c : ℚ) : Bool :=
  match x with
  | some v => decide (c < v)
  | none => false

/-- validate_ranges, sessions part then wellness part, raising on the
first violated bound; sleep_quality is double-checked among the
non-missing entries, the other wellness columns drop missing entries
before comparing, and the session comparisons are elementwise (a
missing value compares false either way). -/
def validate_ranges (sessions : List SessRow) (wellness : List WellRow) :
    Except String Unit :=
  if sessions.any (fun r => oLt r.minutes 0) then
    Except.error "sessions.minutes contains negative values."
  else if sessions.any (fun r => oLt r.sRPE 0 || oGt r.sRPE 10) then
    Except.error "sessions.sRPE should be in 0 to 10."
  else if sessions.any (fun r => oLt r.external_load 0) then
    Except.error "sessions.external_load contains negative values."
  else if sessions.any (fun r => oLt r.total_accels 0) then
    Except.error "sessions.total_accels contains negative values."
  else if sessions.any (fun r => oLt r.jump_count 0) then
    Except.error "sessions.jump_count contains negative values."
  else if wellness.any (fun r => oLt r.sleep_quality 1 || oGt r.sleep_quality 5) then
    (if (wellness.filterMap (fun r => r.sleep_quality)).any
        (fun v => decide (v < 1) || decide (5 < v)) then
      Except.error "wellness.sleep_quality should be in 1 to 5."
    else validateWellnessTail wellness)
  else validateWellnessTail wellness
where
  validateWellnessTail (wellness : List WellRow) : Except String Unit :=
    if (wellness.filterMap (fun r => r.soreness)).any
        (fun v => decide (v < 1) || decide (10 < v)) then
      Except.error "wellness.soreness should be in 1 to 10."
    else if (wellness.filterMap (fun r => r.fatigue)).any
        (fun v => decide (v < 1) || decide (10 < v)) then
      Except.error "wellness.fatigue should be in 1 to 10."
    else if (wellness.filterMap (fun r => r.stress)).any
        (fun v => decide (v < 1) || decide (10 < v)) then
      Except.error "wellness.stress should be in 1 to 10."
    else if (wellness.filterMap (fun r => r.mood)).any
        (fun v => decide (v < 1) || decide (10 < v)) then
      Except.error "wellness.mood should be in 1 to 10."
    else if (wellness.filterMap (fun r => r.sleep_hours)).any
        (fun v => decide (v < 0) || decide (24 < v)) then
      Except.error "wellness.sleep_hours should be in 0 to 24."
    else Except.ok ()

/-- Spec reading: some non-missing session value violates its domain
bound (minutes, external_load, total_accels, jump_count nonnegative,
sRPE within 0 to 10). -/
def sessViolation (sessions : List SessRow) : Prop :=
  ∃ r ∈ sessions,
    (∃ v, r.minutes = some v ∧ v < 0) ∨
    (∃ v, r.sRPE = some v ∧ (v < 0 ∨ 10 < v)) ∨
    (∃ v, r.external_load = some v ∧ v < 0) ∨
    (∃ v, r.total_accels = some v ∧ v < 0) ∨
    (∃ v, r.jump_count = some v ∧ v < 0)

/-- Spec reading: some non-missing wellness value violates its domain
bound (sleep_quality within 1 to 5, soreness, fatigue, stress, mood
within 1 to 10, sleep_hours within 0 to 24). -/
def wellViolation (wellness : List WellRow) : Prop :=
  ∃ r ∈ wellness,
    (∃ v, r.sleep_quality = some v ∧ (v < 1 ∨ 5 < v)) ∨
    (∃ v, r.soreness = some v ∧ (v < 1 ∨ 10 < v)) ∨
    (∃ v, r.fatigue = some v ∧ (v < 1 ∨ 10 < v)) ∨
    (∃ v, r.stress = some v ∧ (v < 1 ∨ 10 < v)) ∨
    (∃ v, r.mood = some v ∧ (v < 1 ∨ 10 < v)) ∨
    (∃ v, r.sleep_hours = some v ∧ (v < 0 ∨ 24 < v))

/-- Scenario input of C1: two raw session rows of player P1 on
consecutive days, 60 minutes at sRPE 5 then 60 minutes at sRPE 8. -/
def c1raw : List RawSessRow :=
  [ { player_id := "P1", date := some 1, minutes := some 60, sRPE := some 5,
      external_load := some 0, total_accels := some 0, jump_count := some 0 },
    { player_id := "P1", date := some 2, minutes := some 60, sRPE := some 8,
      external_load := some 0, total_accels := some 0, jump_count := some 0 } ]

/-- The cleaned table prep_sessions produces from c1raw. -/
def c1tbl : List SessRow :=
  [ { player_id := "P1", date := 1, minutes := some 60, sRPE := some 5,
      external_load := some 0, total_accels := some 0, jump_count := some 0,
      internal_load := some 300 },
    { player_id := "P1", date := 2, minutes := some 60, sRPE := some 8,
      external_load := some 0, total_accels := some 0, jump_count := some 0,
      internal_load := some 480 } ]

/-- Witness wellness table for C2: one player with two readiness_raw
values 7 and 9 (mean 8, population variance 1). -/
def c2wit : List WellRow :=
  [ { player_id := "P1", date := 1, sleep_hours := some 8, sleep_quality := some 5,
      soreness := some 1, fatigue := some 1, stress := some 1, mood := some 5 },
    { player_id := "P1", date := 2, sleep_hours := some 8, sleep_quality := some 5,
      soreness := some 1, fatigue := some 1, stress := some 1, mood := some 7 } ]

def c2cexRow1 : WellRow :=
  { player_id := "P1", date := 1, sleep_hours := some 8, sleep_quality := some 5,
    soreness := some 1, fatigue := some 1, stress := some 1, mood := some 5 }

/-- A row whose sleep_quality is missing, so its readiness_raw is missing. -/
def c2cexRow2 : WellRow :=
  { player_id := "P1", date := 2, sleep_hours := some 8, sleep_quality := none,
    soreness := some 1, fatigue := some 1, stress := some 1, mood := some 5 }

/-- Counterexample wellness table for C2: one player whose only
non-missing readiness_raw value is 7 (zero standard deviation), plus a
second row whose readiness_raw is missing. -/
def c2cex : List WellRow := [c2cexRow1, c2cexRow2]

/-- A wellness table with a duplicated (player_id, date) key. -/
def c3wellness : List WellRow :=
  [ { player_id := "P1", date := 1, sleep_hours := some 8, sleep_quality := some 4,
      soreness := some 2, fatigue := some 2, stress := some 2, mood := some 7 },
    { player_id := "P1", date := 1, sleep_hours := some 7, sleep_quality := some 3,
      soreness := some 3, fatigue := some 3, stress := some 3, mood := some 6 } ]

/-- A session table with a duplicated (player_id, date) key. -/
def c9sessions : List SessRow :=
  [ { player_id := "P1", date := 1, minutes := some 60, sRPE := some 5,
      external_load := some 0, total_accels := some 0, jump_count := some 0,
      internal_load := some 300 },
    { player_id := "P1", date := 1, minutes := some 30, sRPE := some 4,
      external_load := some 0, total_accels := some 0, jump_count := some 0,
      internal_load := some 120 } ]

/-- A player reference table that only knows player P1. -/
def c4players : List PlayerRow :=
  [ { player_id := "P1", player_name := "Alice", position := "FW",
      status := "active" } ]

/-- A session table whose only row belongs to P2, unknown to c4players. -/
def c4sessions : List SessRow :=
  [ { player_id := "P2", date := 1, minutes := some 60, sRPE := some 5,
      external_load := some 0, total_accels := some 0, jump_count := some 0,
      internal_load := some 300 } ]

/-- The daily row merge_daily produces for the unmatched P2 session. -/
def c4row : DailyRow :=
  { player_id := "P2", date := 1, internal_load := some 300,
    sleep_hours := none, sleep_quality := none, soreness := none,
    fatigue := none, stress := none, mood := none, player_name := none,
    position := none, status := none }

/-- Witness daily table for C5: one player, rolling load 100 then 200. -/
def c5daily : List FlagInRow :=
  [ { player_id := "P1", date := 1, load := some 100, readiness_score := some 0 },
    { player_id := "P1", date := 2, load := some 200, readiness_score := some 0 } ]

/-- Witness daily table for C10: a row with missing readiness_score. -/
def c10daily : List FlagInRow :=
  [ { player_id := "P1", date := 1, load := some 100, readiness_score := none } ]

/-- Counterexample daily table for C6: on the shared date, P1 leads by
the 7-day rolling load but P2 leads by the 28-day rolling load. -/
def c6rowA : TeamRow :=
  { player_id := "P1", date := 1, internal_load := some 10,
    internal_load_7d := some 100, internal_load_28d := some 50 }

def c6rowB : TeamRow :=
  { player_id := "P2", date := 1, internal_load := some 20,
    internal_load_7d := some 90, internal_load_28d := some 200 }

def c6daily : List TeamRow := [c6rowA, c6rowB]

/-- Claim C3: a wellness table with two rows sharing the same
(player_id, date) key makes merge_daily fail rather than return a
table. -/
theorem claim_C3 (players : List PlayerRow) (sessions : List SessRow)
    (wellness : List WellRow) (hdup : ¬ (wellness.map wellKeyOf).Nodup) :
    isErr (merge_daily players sessions wellness) = true := by
  unfold merge_daily
  by_cases hs : (sessions.map sessKeyOf).Nodup
  · simp [hs, hdup, isErr]
  · simp [hs, isErr]

theorem claim_C3_witness : isErr (merge_daily [] [] c3wellness) = true :=
  claim_C3 [] [] c3wellness (by decide)

/-- Claim C9: a session table with two rows sharing the same
(player_id, date) key also makes merge_daily fail: the one_to_one
validation applies to the session side as well. -/
theorem claim_C9 (players : List PlayerRow) (sessions : List SessRow)
    (wellness : List WellRow) (hdup : ¬ (sessions.map sessKeyOf).Nodup) :
    isErr (merge_daily players sessions wellness) = true := by
  unfold merge_daily
  simp [hdup, isErr]

theorem claim_C9_witness : isErr (merge_daily [] c9sessions []) = true :=
  claim_C9 [] c9sessions [] (by decide)

/-- Claim C8: the fill-mode and scoring-method options are closed
enumerations: prep_wellness fails for any fill_method outside ffill,
bfill, none, and compute_readiness_score fails for any method other
than simple, before returning any result. -/
theorem claim_C8 :
    (∀ (raw : List RawWellRow) (fm : String),
        fm ∉ (["ffill", "bfill", "none"] : List String) →
        isErr (prep_wellness raw fm) = true) ∧
    (∀ (w : List WellRow) (m : String) (st : Bool),
        m ≠ "simple" → isErr (compute_readiness_score w m st) = true) := by
  constructor
  · intro raw fm hfm
    have h1 : fm ≠ "ffill" := fun h => hfm (by simp [h])
    have h2 : fm ≠ "bfill" := fun h => hfm (by simp [h])
    have h3 : fm ≠ "none" := fun h => hfm (by simp [h])
    unfold prep_wellness
    by_cases hd : raw.all (fun r => r.date.isSome)
    · simp [hd, h1, h2, h3, isErr]
    · simp [hd, isErr]
  · intro w m st hm
    unfold compute_readiness_score
    simp [hm, isErr]

theorem claim_C8_witness :
    isErr (prep_wellness [] "mean") = true ∧
    isErr (compute_readiness_score [] "fancy" true) = true :=
  ⟨claim_C8.1 [] "mean" (by decide), claim_C8.2 [] "fancy" true (by decide)⟩

theorem oLtGt_iff (x : Option ℚ) (a b : ℚ) :
    (oLt x a || oGt x b) = true ↔ ∃ v, x = some v ∧ (v < a ∨ b < v) := by
  cases x <;> simp [oLt, oGt]

theorem oLt_iff (x : Option ℚ) (c : ℚ) :
    oLt x c = true ↔ ∃ v, x = some v ∧ v < c := by
  cases x <;> simp [oLt]

theorem any_oLt_iff {α : Type} (l : List α) (f : α → Option ℚ) (c : ℚ) :
    l.any (fun r => oLt (f r) c) = true ↔ ∃ r ∈ l, ∃ v, f r = some v ∧ v < c := by
  simp [List.any_eq_true, oLt_iff]

theorem any_between_iff {α : Type} (l : List α) (f : α → Option ℚ) (a b : ℚ) :
    l.any (fun r => oLt (f r) a || oGt (f r) b) = true ↔
      ∃ r ∈ l, ∃ v, f r = some v ∧ (v < a ∨ b < v) := by
  simp only [List.any_eq_true, oLtGt_iff]

theorem anyDropna_iff {α : Type} (l : List α) (f : α → Option ℚ) (a b : ℚ) :
    (l.filterMap f).any (fun v => decide (v < a) || decide (b < v)) = true ↔
      ∃ r ∈ l, ∃ v, f r = some v ∧ (v < a ∨ b < v) := by
  simp only [List.any_eq_true, List.mem_filterMap, Bool.or_eq_true, decide_eq_true_eq]
  constructor
  · rintro ⟨v, ⟨r, hr, hfr⟩, hv⟩
    exact ⟨r, hr, v, hfr, hv⟩
  · rintro ⟨r, hr, v, hfr, hv⟩
    exact ⟨v, ⟨r, hr, hfr⟩, hv⟩

/-- Claim C7: validate_ranges raises a RangeError exactly when some
non-missing value in a checked column violates its domain bound;
missing values never trigger it.  (The embedding is a pure function of
its inputs, so neither table is modified.) -/
theorem claim_C7 (sessions : List SessRow) (wellness : List WellRow) :
    isErr (validate_ranges sessions wellness) = true ↔
      (sessViolation sessions ∨ wellViolation wellness) := by
  have hm := any_oLt_iff sessions (fun r => r.minutes) (0 : ℚ)
  have hsr := any_between_iff sessions (fun r => r.sRPE) (0 : ℚ) 10
  have hel := any_oLt_iff sessions (fun r => r.external_load) (0 : ℚ)
  have hta := any_oLt_iff sessions (fun r => r.total_accels) (0 : ℚ)
  have hjc := any_oLt_iff sessions (fun r => r.jump_count) (0 : ℚ)
  have hsq := any_between_iff wellness (fun r => r.sleep_quality) (1 : ℚ) 5
  have hsq2 := anyDropna_iff wellness (fun r => r.sleep_quality) (1 : ℚ) 5
  have hso := anyDropna_iff wellness (fun r => r.soreness) (1 : ℚ) 10
  have hfa := anyDropna_iff wellness (fun r => r.fatigue) (1 : ℚ) 10
  have hst := anyDropna_iff wellness (fun r => r.stress) (1 : ℚ) 10
  have hmo := anyDropna_iff wellness (fun r => r.mood) (1 : ℚ) 10
  have hsh := anyDropna_iff wellness (fun r => r.sleep_hours) (0 : ℚ) 24
  unfold validate_ranges
  by_cases c1 : sessions.any (fun r => oLt r.minutes 0) = true
  · simp only [c1, if_true, isErr, true_iff]
    obtain ⟨r, hr, v, h1, h2⟩ := hm.mp c1
    exact Or.inl ⟨r, hr, Or.inl ⟨v, h1, h2⟩⟩
  · by_cases c2 : sessions.any (fun r => oLt r.sRPE 0 || oGt r.sRPE 10) = true
    · simp only [c1, c2, if_true, if_false, Bool.false_eq_true, isErr, true_iff]
      obtain ⟨r, hr, v, h1, h2⟩ := hsr.mp c2
      exact Or.inl ⟨r, hr, Or.inr (Or.inl ⟨v, h1, h2⟩)⟩
    · by_cases c3 : sessions.any (fun r => oLt r.external_load 0) = true
      · simp only [c1, c2, c3, if_true, if_false, Bool.false_eq_true, isErr, true_iff]
        obtain ⟨r, hr, v, h1, h2⟩ := hel.mp c3
        exact Or.inl ⟨r, hr, Or.inr (Or.inr (Or.inl ⟨v, h1, h2⟩))⟩
      · by_cases c4 : sessions.any (fun r => oLt r.total_accels 0) = true
        · simp only [c1, c2, c3, c4, if_true, if_false, Bool.false_eq_true, isErr, true_iff]
          obtain ⟨r, hr, v, h1, h2⟩ := hta.mp c4
          exact Or.inl ⟨r, hr, Or.inr (Or.inr (Or.inr (Or.inl ⟨v, h1, h2⟩)))⟩
        · by_cases c5 : sessions.any (fun r => oLt r.jump_count 0) = true
          · simp only [c1, c2, c3, c4, c5, if_true, if_false, Bool.false_eq_true,
              isErr, true_iff]
            obtain ⟨r, hr, v, h1, h2⟩ := hjc.mp c5
            exact Or.inl ⟨r, hr, Or.inr (Or.inr (Or.inr (Or.inr ⟨v, h1, h2⟩)))⟩
          · have hnosess : ¬ sessViolation sessions := by
              rintro ⟨r, hr, hviol⟩
              rcases hviol with ⟨v, h1, h2⟩ | ⟨v, h1, h2⟩ | ⟨v, h1, h2⟩ |
                ⟨v, h1, h2⟩ | ⟨v, h1, h2⟩
              · exact c1 (hm.mpr ⟨r, hr, v, h1, h2⟩)
              · exact c2 (hsr.mpr ⟨r, hr, v, h1, h2⟩)
              · exact c3 (hel.mpr ⟨r, hr, v, h1, h2⟩)
              · exact c4 (hta.mpr ⟨r, hr, v, h1, h2⟩)
              · exact c5 (hjc.mpr ⟨r, hr, v, h1, h2⟩)
            by_cases c6 : wellness.any (fun r => oLt r.sleep_quality 1 || oGt r.sleep_quality 5) = true
            · have c6b : (wellness.filterMap (fun r => r.sleep_quality)).any
                  (fun v => decide (v < 1) || decide (5 < v)) = true :=
                hsq2.mpr (hsq.mp c6)
              simp only [c1, c2, c3, c4, c5, c6, c6b, if_true, if_false,
                Bool.false_eq_true, isErr, true_iff]
              obtain ⟨r, hr, v, h1, h2⟩ := hsq.mp c6
              exact Or.inr ⟨r, hr, Or.inl ⟨v, h1, h2⟩⟩
            · by_cases c7 : (wellness.filterMap (fun r => r.soreness)).any
                  (fun v => decide (v < 1) || decide (10 < v)) = true
              · simp only [c1, c2, c3, c4, c5, c6, c7, if_true, if_false,
                  Bool.false_eq_true, isErr, validate_ranges.validateWellnessTail, true_iff]
                obtain ⟨r, hr, v, h1, h2⟩ := hso.mp c7
                exact Or.inr ⟨r, hr, Or.inr (Or.inl ⟨v, h1, h2⟩)⟩
              · by_cases c8 : (wellness.filterMap (fun r => r.fatigue)).any
                    (fun v => decide (v < 1) || decide (10 < v)) = true
                · simp only [c1, c2, c3, c4, c5, c6, c7, c8, if_true, if_false,
                    Bool.false_eq_true, isErr, validate_ranges.validateWellnessTail, true_iff]
                  obtain ⟨r, hr, v, h1, h2⟩ := hfa.mp c8
                  exact Or.inr ⟨r, hr, Or.inr (Or.inr (Or.inl ⟨v, h1, h2⟩))⟩
                · by_cases c9 : (wellness.filterMap (fun r => r.stress)).any
                      (fun v => decide (v < 1) || decide (10 < v)) = true
                  · simp only [c1, c2, c3, c4, c5, c6, c7, c8, c9, if_true, if_false,
                      Bool.false_eq_true, isErr, validate_ranges.validateWellnessTail, true_iff]
                    obtain ⟨r, hr, v, h1, h2⟩ := hst.mp c9
                    exact Or.inr ⟨r, hr, Or.inr (Or.inr (Or.inr (Or.inl ⟨v, h1, h2⟩)))⟩
                  · by_cases c10 : (wellness.filterMap (fun r => r.mood)).any
                        (fun v => decide (v < 1) || decide (10 < v)) = true
                    · simp only [c1, c2, c3, c4, c5, c6, c7, c8, c9, c10, if_true,
                        if_false, Bool.false_eq_true, isErr,
                        validate_ranges.validateWellnessTail, true_iff]
                      obtain ⟨r, hr, v, h1, h2⟩ := hmo.mp c10
                      exact Or.inr ⟨r, hr, Or.inr (Or.inr (Or.inr (Or.inr (Or.inl ⟨v, h1, h2⟩))))⟩
                    · by_cases c11 : (wellness.filterMap (fun r => r.sleep_hours)).any
                          (fun v => decide (v < 0) || decide (24 < v)) = true
                      · simp only [c1, c2, c3, c4, c5, c6, c7, c8, c9, c10, c11,
                          if_true, if_false, Bool.false_eq_true, isErr,
                          validate_ranges.validateWellnessTail, true_iff]
                        obtain ⟨r, hr, v, h1, h2⟩ := hsh.mp c11
                        exact Or.inr ⟨r, hr, Or.inr (Or.inr (Or.inr (Or.inr (Or.inr ⟨v, h1, h2⟩))))⟩
                      · have hnowell : ¬ wellViolation wellness := by
                          rintro ⟨r, hr, hviol⟩
                          rcases hviol with ⟨v, h1, h2⟩ | ⟨v, h1, h2⟩ | ⟨v, h1, h2⟩ |
                            ⟨v, h1, h2⟩ | ⟨v, h1, h2⟩ | ⟨v, h1, h2⟩
                          · exact c6 (hsq.mpr ⟨r, hr, v, h1, h2⟩)
                          · exact c7 (hso.mpr ⟨r, hr, v, h1, h2⟩)
                          · exact c8 (hfa.mpr ⟨r, hr, v, h1, h2⟩)
                          · exact c9 (hst.mpr ⟨r, hr, v, h1, h2⟩)
                          · exact c10 (hmo.mpr ⟨r, hr, v, h1, h2⟩)
                          · exact c11 (hsh.mpr ⟨r, hr, v, h1, h2⟩)
                        simp only [c1, c2, c3, c4, c5, c6, c7, c8, c9, c10, c11,
                          if_true, if_false, Bool.false_eq_true, isErr,
                          validate_ranges.validateWellnessTail, false_iff]
                        rintro (h | h)
                        · exact hnosess h
                        · exact hnowell h

theorem optDescLE_total (a b : Option ℚ) : optDescLE a b ∨ optDescLE b a := by
  cases a <;> cases b <;> simp [optDescLE]
  exact le_total _ _

theorem optDescLE_trans {a b c : Option ℚ} (h1 : optDescLE a b)
    (h2 : optDescLE b c) : optDescLE a c := by
  cases a <;> cases b <;> cases c <;> simp [optDescLE] at *
  exact le_trans h2 h1

instance (has7d : Bool) : IsTotal TeamRow (teamLE has7d) :=
  ⟨fun a b => optDescLE_total (teamKey has7d a) (teamKey has7d b)⟩

instance (has7d : Bool) : IsTrans TeamRow (teamLE has7d) :=
  ⟨fun _ _ _ h1 h2 => optDescLE_trans h1 h2⟩

/-- Claim C6, amended: the team daily table consists of exactly the
rows of the daily table whose date equals the snapshot date, sorted
descending (missing keys last) by the internal_load_7d column when it
is present, else by the raw internal_load column — not by the longest
configured rolling window. -/
theorem claim_C6 (has7d : Bool) (daily : List TeamRow) (snapshot_date : Nat) :
    (make_team_daily_table has7d daily snapshot_date).Perm
        (daily.filter (fun r => r.date = snapshot_date)) ∧
      List.Pairwise (teamLE has7d)
        (make_team_daily_table has7d daily snapshot_date) :=
  ⟨List.perm_insertionSort _ _, List.sorted_insertionSort _ _⟩

/-- Claim C6 counterexample: with both rolling columns present the code
orders by internal_load_7d, and the result is not ordered descending by
the longest configured window internal_load_28d. -/
theorem claim_C6_counterexample :
    make_team_daily_table true c6daily 1 = [c6rowA, c6rowB] ∧
      ¬ List.Pairwise
        (fun a b : TeamRow => optDescLE a.internal_load_28d b.internal_load_28d)
        [c6rowA, c6rowB] := by
  constructor
  · decide
  · decide

theorem fltGt_iff (f : Flt) (t : ℚ) : fltGt f t = true ↔ exceedsThreshold f t := by
  cases f <;> simp [fltGt, exceedsThreshold]

theorem add_simple_flags_length (daily : List FlagInRow) (sp rz : ℚ) :
    (add_simple_flags daily sp rz).length = (sortFlagIn daily).length := by
  unfold add_simple_flags
  simp

/-- The output row of add_simple_flags at position i, written in terms
of the sorted input table. -/
theorem add_simple_flags_getD (daily : List FlagInRow) (sp rz : ℚ) (i : Nat)
    (hi : i < (add_simple_flags daily sp rz).length) :
    (add_simple_flags daily sp rz).getD i dfltFlag =
      { player_id := ((sortFlagIn daily).getD i dfltFlagIn).player_id,
        date := ((sortFlagIn daily).getD i dfltFlagIn).date,
        load := ((sortFlagIn daily).getD i dfltFlagIn).load,
        readiness_score := ((sortFlagIn daily).getD i dfltFlagIn).readiness_score,
        load_pct_change := flagPC daily i,
        flag_load_spike := fltGt (flagPC daily i) sp,
        flag_low_readiness :=
          match ((sortFlagIn daily).getD i dfltFlagIn).readiness_score with
          | none => false
          | some v => decide (v < rz) } := by
  have hi2 : i < (sortFlagIn daily).length := by
    rwa [add_simple_flags_length] at hi
  rw [List.getD_eq_getElem _ _ hi]
  unfold add_simple_flags
  simp only [List.getElem_map, List.getElem_enum]
  unfold flagPC flagPrior
  rw [List.getD_eq_getElem _ _ hi2]

/-- Claim C5: load_pct_change is the fractional change of the load
column from the immediately preceding row of the same player in the
sorted table, NaN on each player's first row; flag_load_spike is true
exactly when the percent change strictly exceeds the threshold and is
false (a plain boolean) whenever the percent change is NaN. -/
theorem claim_C5 (daily : List FlagInRow) (sp rz : ℚ) (i : Nat)
    (hi : i < (add_simple_flags daily sp rz).length) :
    (flagPrior daily i = [] →
      ((add_simple_flags daily sp rz).getD i dfltFlag).load_pct_change = Flt.nan) ∧
    (∀ (q : FlagInRow) (p c : ℚ),
      (flagPrior daily i).getLast? = some q →
      q.load = some p → ((sortFlagIn daily).getD i dfltFlagIn).load = some c → p ≠ 0 →
      ((add_simple_flags daily sp rz).getD i dfltFlag).load_pct_change =
        Flt.val ((c - p) / p)) ∧
    (((add_simple_flags daily sp rz).getD i dfltFlag).flag_load_spike = true ↔
      exceedsThreshold
        (((add_simple_flags daily sp rz).getD i dfltFlag).load_pct_change) sp) ∧
    (((add_simple_flags daily sp rz).getD i dfltFlag).load_pct_change = Flt.nan →
      ((add_simple_flags daily sp rz).getD i dfltFlag).flag_load_spike = false) := by
  rw [add_simple_flags_getD daily sp rz i hi]
  refine ⟨?_, ?_, ?_, ?_⟩
  · intro h
    show flagPC daily i = Flt.nan
    simp [flagPC, h]
  · intro q p c h1 h2 h3 hp0
    show flagPC daily i = Flt.val ((c - p) / p)
    unfold flagPC
    simp only [h1]
    rw [h2, h3]
    simp [pctChange, hp0]
  · exact fltGt_iff _ _
  · intro h
    have h2 : flagPC daily i = Flt.nan := h
    show fltGt (flagPC daily i) sp = false
    rw [h2]
    rfl

theorem claim_C5_witness :
    ((add_simple_flags c5daily (1/4) (-1)).getD 1 dfltFlag).load_pct_change =
      Flt.val ((200 - 100) / 100) :=
  (claim_C5 c5daily (1/4) (-1) 1 (by decide)).2.1
    { player_id := "P1", date := 1, load := some 100, readiness_score := some 0 }
    100 200 (by decide) (by decide) (by decide) (by decide)

/-- Claim C10: flag_low_readiness is a plain boolean, and it is false on
every row whose readiness_score is missing. -/
theorem claim_C10 (daily : List FlagInRow) (sp rz : ℚ) (i : Nat)
    (hi : i < (add_simple_flags daily sp rz).length)
    (hmiss : ((add_simple_flags daily sp rz).getD i dfltFlag).readiness_score = none) :
    ((add_simple_flags daily sp rz).getD i dfltFlag).flag_low_readiness = false := by
  rw [add_simple_flags_getD daily sp rz i hi] at hmiss ⊢
  have h2 : ((sortFlagIn daily).getD i dfltFlagIn).readiness_score = none := hmiss
  show (match ((sortFlagIn daily).getD i dfltFlagIn).readiness_score with
        | none => false
        | some v => decide (v < rz)) = false
  rw [h2]

theorem claim_C10_witness :
    ((add_simple_flags c10daily (1/4) (-1)).getD 0 dfltFlag).flag_low_readiness = false :=
  claim_C10 c10daily (1/4) (-1) 0 (by decide) (by decide)

theorem mergeRows_mem_iff (players : List PlayerRow) (sessions : List SessRow)
    (wellness : List WellRow) (r : DailyRow) :
    r ∈ mergeRows players sessions wellness ↔
      r ∈ sessions.map (mergeRow players wellness) :=
  (List.perm_insertionSort _ _).mem_iff

/-- Claim C4, amended: merge_daily does not enforce the player foreign
key.  With unique keys on all three tables it returns the merged table,
and any row whose player_id has no match in the player reference table
comes out with missing player_name, position and status instead of
raising. -/
theorem claim_C4 (players : List PlayerRow) (sessions : List SessRow)
    (wellness : List WellRow) (i : Nat)
    (hs : (sessions.map sessKeyOf).Nodup) (hw : (wellness.map wellKeyOf).Nodup)
    (hp : (players.map (fun p => p.player_id)).Nodup)
    (hi : i < (mergeRows players sessions wellness).length)
    (hun : ((mergeRows players sessions wellness).getD i dfltDaily).player_id ∉
      players.map (fun p => p.player_id)) :
    merge_daily players sessions wellness =
        Except.ok (mergeRows players sessions wellness) ∧
      ((mergeRows players sessions wellness).getD i dfltDaily).player_name = none ∧
      ((mergeRows players sessions wellness).getD i dfltDaily).position = none ∧
      ((mergeRows players sessions wellness).getD i dfltDaily).status = none := by
  refine ⟨by simp [merge_daily, hs, hw, hp], ?_⟩
  have hmem : (mergeRows players sessions wellness).getD i dfltDaily ∈
      mergeRows players sessions wellness := by
    rw [List.getD_eq_getElem _ _ hi]
    exact List.getElem_mem hi
  rw [mergeRows_mem_iff] at hmem
  obtain ⟨s, hsmem, heq⟩ := List.mem_map.mp hmem
  have hpid : ((mergeRows players sessions wellness).getD i dfltDaily).player_id
      = s.player_id := by
    rw [← heq]
    rfl
  have hfind : players.find? (fun x => x.player_id = s.player_id) = none := by
    rw [List.find?_eq_none]
    intro x hx hxe
    apply hun
    rw [hpid]
    exact List.mem_map.mpr ⟨x, hx, of_decide_eq_true hxe⟩
  rw [← heq]
  simp [mergeRow, hfind]

theorem claim_C4_witness :
    merge_daily c4players c4sessions [] =
        Except.ok (mergeRows c4players c4sessions []) ∧
      ((mergeRows c4players c4sessions []).getD 0 dfltDaily).player_name = none ∧
      ((mergeRows c4players c4sessions []).getD 0 dfltDaily).position = none ∧
      ((mergeRows c4players c4sessions []).getD 0 dfltDaily).status = none :=
  claim_C4 c4players c4sessions [] 0 (by decide) (by decide) (by decide)
    (by decide) (by decide)

/-- Claim C4 counterexample: a session row of the unknown player P2
does not make merge_daily raise; it yields a daily row whose player
fields are missing. -/
theorem claim_C4_counterexample :
    merge_daily c4players c4sessions [] = Except.ok [c4row] ∧
      c4row.player_name = none := by
  constructor
  · rfl
  · rfl

theorem rMean_def (l : List ℝ) : rMean l = l.sum / l.length := rfl

theorem rVar_def (l : List ℝ) :
    rVar l = (l.map (fun x => (x - rMean l) ^ 2)).sum / l.length := rfl

theorem rCast_length (l : List ℚ) : (rCast l).length = l.length := by
  simp [rCast]

theorem castSum (l : List ℚ) : ((l.sum : ℚ) : ℝ) = (rCast l).sum := by
  unfold rCast
  induction l with
  | nil => simp
  | cons a t ih => simp only [List.sum_cons, List.map_cons, Rat.cast_add, ih]

theorem castMean (l : List ℚ) : ((qMean l : ℚ) : ℝ) = rMean (rCast l) := by
  unfold qMean
  rw [rMean_def, Rat.cast_div, castSum, rCast_length]
  simp only [Rat.cast_natCast]

theorem rCast_map_sq (l : List ℚ) :
    rCast (l.map (fun x => (x - qMean l) ^ 2)) =
      (rCast l).map (fun x => (x - rMean (rCast l)) ^ 2) := by
  show (l.map (fun x => (x - qMean l) ^ 2)).map Rat.cast =
    (l.map Rat.cast).map (fun x => (x - rMean (rCast l)) ^ 2)
  rw [List.map_map, List.map_map]
  congr 1
  funext x
  simp only [Function.comp]
  push_cast
  rw [castMean]

theorem castVar (l : List ℚ) : ((qVar l : ℚ) : ℝ) = rVar (rCast l) := by
  unfold qVar
  rw [rVar_def, Rat.cast_div, castSum, rCast_map_sq, rCast_length]
  simp only [Rat.cast_natCast]

theorem sum_nonneg_zero {l : List ℚ} (h0 : ∀ x ∈ l, 0 ≤ x) (hs : l.sum = 0) :
    ∀ x ∈ l, x = 0 := by
  induction l with
  | nil => simp
  | cons a t ih =>
    simp only [List.sum_cons] at hs
    have ha : 0 ≤ a := h0 a (by simp)
    have hts : 0 ≤ t.sum := List.sum_nonneg (fun x hx => h0 x (by simp [hx]))
    have ha0 : a = 0 := le_antisymm (by linarith) ha
    intro x hx
    rcases List.mem_cons.mp hx with rfl | hx2
    · exact ha0
    · exact ih (fun y hy => h0 y (by simp [hy])) (by linarith) x hx2

theorem qVar_pos {l : List ℚ} {x y : ℚ} (hx : x ∈ l) (hy : y ∈ l)
    (hxy : x ≠ y) : 0 < qVar l := by
  have hne : l ≠ [] := by rintro rfl; simp at hx
  have hn : 0 < (l.length : ℚ) := by
    have := List.length_pos.mpr hne
    exact_mod_cast this
  unfold qVar
  apply div_pos ?_ hn
  have hnonneg : ∀ z ∈ l.map (fun t => (t - qMean l) ^ 2), 0 ≤ z := by
    intro z hz
    obtain ⟨t, _, rfl⟩ := List.mem_map.mp hz
    positivity
  have hge : 0 ≤ (l.map (fun t => (t - qMean l) ^ 2)).sum := List.sum_nonneg hnonneg
  rcases eq_or_lt_of_le hge with heq | hlt
  · exfalso
    have hall := sum_nonneg_zero hnonneg heq.symm
    have hx0 : (x - qMean l) ^ 2 = 0 := hall _ (List.mem_map_of_mem _ hx)
    have hy0 : (y - qMean l) ^ 2 = 0 := hall _ (List.mem_map_of_mem _ hy)
    have hx1 : x = qMean l := sub_eq_zero.mp (sq_eq_zero_iff.mp hx0)
    have hy1 : y = qMean l := sub_eq_zero.mp (sq_eq_zero_iff.mp hy0)
    exact hxy (hx1.trans hy1.symm)
  · exact hlt

theorem sum_map_sub (l : List ℝ) (c : ℝ) :
    (l.map (fun x => x - c)).sum = l.sum - l.length * c := by
  induction l with
  | nil => simp
  | cons a t ih => simp [ih]; ring

theorem sum_map_div (l : List ℝ) (f : ℝ → ℝ) (s : ℝ) :
    (l.map (fun x => f x / s)).sum = (l.map f).sum / s := by
  induction l with
  | nil => simp
  | cons a t ih => simp [ih]; ring

theorem rMean_standardized (u : List ℝ) (hne : u ≠ []) (s : ℝ) :
    rMean (u.map (fun x => (x - rMean u) / s)) = 0 := by
  have hn : (u.length : ℝ) ≠ 0 := by
    have := List.length_pos.mpr hne
    positivity
  have hsum : (u.map (fun x => (x - rMean u) / s)).sum = 0 := by
    rw [sum_map_div u (fun x => x - rMean u) s, sum_map_sub]
    rw [rMean_def]
    field_simp
  conv_lhs => rw [rMean_def]
  rw [hsum, zero_div]

theorem rVar_nonneg (u : List ℝ) : 0 ≤ rVar u := by
  unfold rVar
  apply div_nonneg
  · apply List.sum_nonneg
    intro z hz
    obtain ⟨t, _, rfl⟩ := List.mem_map.mp hz
    positivity
  · positivity

theorem rVar_standardized (u : List ℝ) (hne : u ≠ []) (hv : rVar u ≠ 0) :
    rVar (u.map (fun x => (x - rMean u) / Real.sqrt (rVar u))) = 1 := by
  have hn : (u.length : ℝ) ≠ 0 := by
    have := List.length_pos.mpr hne
    positivity
  have hs2 : Real.sqrt (rVar u) ^ 2 = rVar u := Real.sq_sqrt (rVar_nonneg u)
  have hmean := rMean_standardized u hne (Real.sqrt (rVar u))
  have hS : (u.map (fun x => (x - rMean u) ^ 2)).sum = rVar u * u.length := by
    conv_rhs => rw [rVar_def]
    rw [div_mul_cancel₀ _ hn]
  conv_lhs => rw [rVar_def]
  rw [hmean]
  simp only [sub_zero, List.length_map, List.map_map]
  have hcomp : ((fun x => x ^ 2) ∘ fun x => (x - rMean u) / Real.sqrt (rVar u)) =
      fun x => (x - rMean u) ^ 2 / Real.sqrt (rVar u) ^ 2 := by
    funext x
    simp [Function.comp, div_pow]
  rw [hcomp, hs2, sum_map_div u (fun x => (x - rMean u) ^ 2) (rVar u), hS]
  field_simp

theorem filterMap_map_option {α β γ : Type} (h : α → Option β) (g : β → γ)
    (l : List α) :
    l.filterMap (fun a => (h a).map g) = (l.filterMap h).map g := by
  induction l with
  | nil => simp
  | cons a t ih =>
    cases hha : h a <;> simp [List.filterMap_cons, hha, ih]

theorem zscoreVal_none (raws : List ℚ) : zscoreVal raws none = none := by
  unfold zscoreVal
  split <;> rfl

theorem scoreRows_length (w : List WellRow) (st : Bool) :
    (scoreRows w st).length = w.length := by
  unfold scoreRows
  simp

/-- The output row of compute_readiness_score at position i. -/
theorem scoreRows_getD (w : List WellRow) (st : Bool) (i : Nat)
    (hi : i < (scoreRows w st).length) :
    (scoreRows w st).getD i dfltScored =
      { toWellRow := w.getD i dfltWell
        readiness_raw := readinessRaw (w.getD i dfltWell)
        readiness_score :=
          if st then
            zscoreVal (playerRaws w ((w.getD i dfltWell)).player_id)
              (readinessRaw (w.getD i dfltWell))
          else (readinessRaw (w.getD i dfltWell)).map Rat.cast } := by
  have hi2 : i < w.length := by rwa [scoreRows_length] at hi
  rw [List.getD_eq_getElem _ _ hi]
  unfold scoreRows
  simp only [List.getElem_map]
  rw [List.getD_eq_getElem _ _ hi2]

theorem scoresOf_scoreRows (w : List WellRow) (p : String) :
    scoresOf (scoreRows w true) p =
      (w.filter (fun r => r.player_id = p)).filterMap
        (fun r => zscoreVal (playerRaws w p) (readinessRaw r)) := by
  unfold scoresOf scoreRows
  rw [List.filter_map, List.filterMap_map]
  show (w.filter (fun r => decide (r.player_id = p))).filterMap
      (fun x => if true then zscoreVal (playerRaws w x.player_id) (readinessRaw x)
        else (readinessRaw x).map Rat.cast) = _
  simp only [if_true]
  apply List.filterMap_congr
  intro x hx
  have hp : x.player_id = p := of_decide_eq_true (List.mem_filter.mp hx).2
  rw [hp]

/-- Claim C2, amended: with standardization requested, for every player
with at least two distinct non-missing readiness_raw values the
non-missing readiness scores of that player have mean 0 and population
standard deviation 1; for a player whose standard deviation is zero or
undefined, each readiness_score is exactly 0 on rows whose
readiness_raw is non-missing, while rows with missing readiness_raw
keep a missing readiness_score (they do not become 0). -/
theorem claim_C2 (w : List WellRow) (p : String) (i : Nat) :
    compute_readiness_score w "simple" true = Except.ok (scoreRows w true) ∧
    ((∃ x ∈ playerRaws w p, ∃ y ∈ playerRaws w p, x ≠ y) →
      rMean (scoresOf (scoreRows w true) p) = 0 ∧
      Real.sqrt (rVar (scoresOf (scoreRows w true) p)) = 1) ∧
    (∀ (_ : playerRaws w p = [] ∨ qVar (playerRaws w p) = 0)
      (_ : i < (scoreRows w true).length)
      (_ : ((scoreRows w true).getD i dfltScored).player_id = p),
      ((scoreRows w true).getD i dfltScored).readiness_score =
        (((scoreRows w true).getD i dfltScored).readiness_raw).map
          (fun _ => (0 : ℝ))) := by
  refine ⟨by simp [compute_readiness_score], ?_, ?_⟩
  · rintro ⟨x, hx, y, hy, hxy⟩
    have hvpos : 0 < qVar (playerRaws w p) := qVar_pos hx hy hxy
    have hne : playerRaws w p ≠ [] := by
      rintro h
      rw [h] at hx
      simp at hx
    have hcond : ¬ (playerRaws w p = [] ∨ qVar (playerRaws w p) = 0) := by
      rintro (h | h)
      · exact hne h
      · exact absurd h (ne_of_gt hvpos)
    have hzs : ∀ r ∈ w.filter (fun r => r.player_id = p),
        zscoreVal (playerRaws w p) (readinessRaw r) =
          (readinessRaw r).map
            (fun v => ((Rat.cast v : ℝ) - ((qMean (playerRaws w p) : ℚ) : ℝ)) /
              Real.sqrt ((qVar (playerRaws w p) : ℚ) : ℝ)) := by
      intro r _
      unfold zscoreVal
      rw [if_neg hcond]
    have hmapeq : (playerRaws w p).map
        (fun v => ((Rat.cast v : ℝ) - ((qMean (playerRaws w p) : ℚ) : ℝ)) /
          Real.sqrt ((qVar (playerRaws w p) : ℚ) : ℝ)) =
        (rCast (playerRaws w p)).map
          (fun z => (z - rMean (rCast (playerRaws w p))) /
            Real.sqrt (rVar (rCast (playerRaws w p)))) := by
      show _ = ((playerRaws w p).map Rat.cast).map _
      rw [List.map_map]
      congr 1
      funext v
      simp only [Function.comp]
      rw [castMean, castVar]
    have hscores : scoresOf (scoreRows w true) p =
        (rCast (playerRaws w p)).map
          (fun z => (z - rMean (rCast (playerRaws w p))) /
            Real.sqrt (rVar (rCast (playerRaws w p)))) := by
      rw [scoresOf_scoreRows, List.filterMap_congr hzs, filterMap_map_option]
      exact hmapeq
    have hneu : rCast (playerRaws w p) ≠ [] := by
      intro h
      apply hne
      have hl := congrArg List.length h
      rw [rCast_length] at hl
      simpa using hl
    have hvu : rVar (rCast (playerRaws w p)) ≠ 0 := by
      rw [← castVar]
      exact_mod_cast ne_of_gt hvpos
    constructor
    · rw [hscores]
      exact rMean_standardized _ hneu _
    · rw [hscores, rVar_standardized _ hneu hvu, Real.sqrt_one]
  · intro hz hi hp
    rw [scoreRows_getD w true i hi] at hp ⊢
    have hp2 : (w.getD i dfltWell).player_id = p := hp
    show zscoreVal (playerRaws w ((w.getD i dfltWell)).player_id)
        (readinessRaw (w.getD i dfltWell)) =
      (readinessRaw (w.getD i dfltWell)).map (fun _ => (0 : ℝ))
    rw [hp2]
    unfold zscoreVal
    rw [if_pos hz]
    cases hcase : readinessRaw (w.getD i dfltWell) <;> simp

theorem c2wit_raws : playerRaws c2wit "P1" = [7, 9] := by
  norm_num [playerRaws, readinessRaw, c2wit, List.filter_cons, List.filterMap_cons]

theorem c2wit_distinct :
    ∃ x ∈ playerRaws c2wit "P1", ∃ y ∈ playerRaws c2wit "P1", x ≠ y := by
  rw [c2wit_raws]
  exact ⟨7, by simp, 9, by simp, by norm_num⟩

theorem c2cex_raws : playerRaws c2cex "P1" = [7] := by
  norm_num [playerRaws, readinessRaw, c2cex, c2cexRow1, c2cexRow2,
    List.filter_cons, List.filterMap_cons]

theorem c2cex_zerovar :
    playerRaws c2cex "P1" = [] ∨ qVar (playerRaws c2cex "P1") = 0 := by
  right
  rw [c2cex_raws]
  norm_num [qVar, qMean]

theorem claim_C2_witness :
    (rMean (scoresOf (scoreRows c2wit true) "P1") = 0 ∧
      Real.sqrt (rVar (scoresOf (scoreRows c2wit true) "P1")) = 1) ∧
    ((scoreRows c2cex true).getD 1 dfltScored).readiness_score =
      (((scoreRows c2cex true).getD 1 dfltScored).readiness_raw).map
        (fun _ => (0 : ℝ)) :=
  ⟨(claim_C2 c2wit "P1" 0).2.1 c2wit_distinct,
   (claim_C2 c2cex "P1" 1).2.2 c2cex_zerovar (by decide) (by decide)⟩

/-- Claim C2 counterexample: in the zero-variance case the code
multiplies the series by zero, which keeps a missing readiness_raw cell
missing: the second row of c2cex gets readiness_score none, not 0. -/
theorem claim_C2_counterexample :
    ((compute_readiness_score c2cex "simple" true).toOption.bind
        (fun out => out[1]?)).map (fun r => r.readiness_score) = some none ∧
      (none : Option ℝ) ≠ some 0 := by
  constructor
  · have h1 : compute_readiness_score c2cex "simple" true =
        Except.ok (scoreRows c2cex true) := by
      simp [compute_readiness_score]
    rw [h1]
    have h3 : (scoreRows c2cex true)[1]? =
        some ⟨c2cexRow2, readinessRaw c2cexRow2,
          zscoreVal (playerRaws c2cex "P1") (readinessRaw c2cexRow2)⟩ := rfl
    show ((scoreRows c2cex true)[1]?).map (fun r => r.readiness_score) = some none
    rw [h3]
    show some (zscoreVal (playerRaws c2cex "P1") (readinessRaw c2cexRow2)) = some none
    rw [show readinessRaw c2cexRow2 = none from rfl, zscoreVal_none]
  · exact fun h => Option.noConfusion h

theorem pdLE_total (a b : String × Nat) : pdLE a b ∨ pdLE b a := by
  unfold pdLE
  rcases lt_trichotomy a.1.data b.1.data with h | h | h
  · exact Or.inl (Or.inl h)
  · rcases le_total a.2 b.2 with h2 | h2
    · exact Or.inl (Or.inr ⟨h, h2⟩)
    · exact Or.inr (Or.inr ⟨h.symm, h2⟩)
  · exact Or.inr (Or.inl h)

theorem pdLE_trans {a b c : String × Nat} (h1 : pdLE a b) (h2 : pdLE b c) :
    pdLE a c := by
  unfold pdLE at *
  rcases h1 with h1 | ⟨h1e, h1le⟩
  · rcases h2 with h2 | ⟨h2e, _⟩
    · exact Or.inl (lt_trans h1 h2)
    · exact Or.inl (by rw [← h2e]; exact h1)
  · rcases h2 with h2 | ⟨h2e, h2le⟩
    · exact Or.inl (by rw [h1e]; exact h2)
    · exact Or.inr ⟨h1e.trans h2e, le_trans h1le h2le⟩

theorem take_filter {α : Type} (p : α → Bool) (l : List α) :
    ∀ n, (l.take n).filter p = (l.filter p).take ((l.take n).countP p) := by
  induction l with
  | nil => intro n; simp
  | cons a t ih =>
    intro n
    cases n with
    | zero => simp
    | succ m =>
      rw [List.take_succ_cons]
      by_cases hpa : p a = true
      · simp [List.filter_cons, hpa, List.countP_cons, ih m]
      · simp [List.filter_cons, hpa, List.countP_cons, ih m]

theorem map_some_filterMap {α : Type} (l : List (Option α))
    (h : ∀ x ∈ l, x.isSome = true) : (l.filterMap id).map some = l := by
  induction l with
  | nil => rfl
  | cons a t ih =>
    cases a with
    | none => simpa using h none (by simp)
    | some v =>
      simp only [List.filterMap_cons, id_eq, List.map_cons]
      rw [ih (fun x hx => h x (by simp [hx]))]

theorem filterMap_id_map_some {α : Type} (l : List α) :
    (l.map some).filterMap id = l := by
  induction l with
  | nil => rfl
  | cons a t ih => simp [List.filterMap_cons, ih]

theorem windowSum_eq_mostRecentSum (vals : List (Option ℚ)) (w minp : Nat)
    (h : ∀ x ∈ vals, x.isSome = true) :
    windowSum vals w minp = mostRecentSum (vals.filterMap id) w minp := by
  obtain ⟨u, rfl⟩ : ∃ u : List ℚ, vals = u.map some :=
    ⟨vals.filterMap id, (map_some_filterMap vals h).symm⟩
  rw [filterMap_id_map_some]
  unfold windowSum mostRecentSum
  rw [List.length_map, ← List.map_drop, filterMap_id_map_some,
    List.take_reverse, List.length_reverse, List.sum_reverse]

theorem lookup_map_self (windows : List Nat) (f : Nat → Option ℚ) (w : Nat)
    (hw : w ∈ windows) :
    (windows.map (fun x => (x, f x))).lookup w = some (f w) := by
  induction windows with
  | nil => simp at hw
  | cons a t ih =>
    rcases List.mem_cons.mp hw with rfl | hw2
    · simp [List.lookup_cons]
    · by_cases hwa : w = a
      · subst hwa
        simp [List.lookup_cons]
      · rw [List.map_cons, List.lookup_cons]
        have hbeq : (w == a) = false := beq_false_of_ne hwa
        rw [hbeq]
        exact ih hw2

theorem compute_rolling_load_length (sessions : List SessRow)
    (windows : List Nat) (minp : Nat) :
    (compute_rolling_load sessions windows minp).length =
      (sortSessions sessions).length := by
  unfold compute_rolling_load
  simp

/-- The output row of compute_rolling_load at position i, written in
terms of the sorted session table. -/
theorem compute_rolling_load_getD (sessions : List SessRow)
    (windows : List Nat) (minp i : Nat)
    (hi : i < (compute_rolling_load sessions windows minp).length) :
    (compute_rolling_load sessions windows minp).getD i dfltRoll =
      ((sortSessions sessions).getD i dfltSess,
        windows.map (fun w => (w, windowSum
          ((((sortSessions sessions).take (i + 1)).filter
            (fun x => x.player_id =
              ((sortSessions sessions).getD i dfltSess).player_id)).map
            (fun x => x.internal_load)) w minp))) := by
  have hi2 : i < (sortSessions sessions).length := by
    rwa [compute_rolling_load_length] at hi
  rw [List.getD_eq_getElem _ _ hi]
  unfold compute_rolling_load
  simp only [List.getElem_map, List.getElem_enum]
  rw [List.getD_eq_getElem _ _ hi2]

theorem compute_rolling_load_lookup (sessions : List SessRow)
    (windows : List Nat) (minp w i : Nat) (hw : w ∈ windows)
    (hi : i < (compute_rolling_load sessions windows minp).length) :
    ((compute_rolling_load sessions windows minp).getD i dfltRoll).2.lookup w =
      some (windowSum
        ((((sortSessions sessions).take (i + 1)).filter
          (fun x => x.player_id =
            ((sortSessions sessions).getD i dfltSess).player_id)).map
          (fun x => x.internal_load)) w minp) := by
  rw [compute_rolling_load_getD sessions windows minp i hi]
  exact lookup_map_self windows _ w hw

/-- Claim C1: for every configured window w, the rolling column at each
output row equals the sum of internal_load over that player's at-most-w
most recent rows up to and including the current one (missing, not
zero, below the min_periods floor), the rows of each player appearing
in ascending date order; and the two-session scenario produces
internal_load 300, 480 and internal_load_7d 300, 780. -/
theorem claim_C1 :
    (∀ (sessions : List SessRow) (windows : List Nat) (minp w i : Nat),
      w ∈ windows →
      i < (compute_rolling_load sessions windows minp).length →
      (∀ r ∈ sortSessions sessions, (r.internal_load).isSome = true) →
      ((compute_rolling_load sessions windows minp).getD i dfltRoll).2.lookup w =
        some (mostRecentSum (playerPrefixLoads (sortSessions sessions) i) w minp)) ∧
    (∀ (sessions : List SessRow) (p : String),
      List.Pairwise (fun a b : SessRow => a.date ≤ b.date)
        ((sortSessions sessions).filter (fun x => x.player_id = p))) ∧
    (prep_sessions c1raw = Except.ok c1tbl ∧
      c1tbl.map (fun r => r.internal_load) = [some 300, some 480] ∧
      (compute_rolling_load c1tbl [7] 1).map (fun pr => pr.2.lookup 7) =
        [some (some 300), some (some 780)]) := by
  refine ⟨?_, ?_, ?_, ?_, ?_⟩
  · intro sessions windows minp w i hw hi hdef
    rw [compute_rolling_load_lookup sessions windows minp w i hw hi]
    rw [take_filter]
    rw [windowSum_eq_mostRecentSum]
    · rw [List.filterMap_map]
      rfl
    · intro x hx
      obtain ⟨y, hy, rfl⟩ := List.mem_map.mp hx
      exact hdef y (List.mem_filter.mp (List.mem_of_mem_take hy)).1
  · intro sessions p
    have hsorted : List.Pairwise
        (fun a b : SessRow => pdLE (sessKeyOf a) (sessKeyOf b))
        (sortSessions sessions) := by
      haveI ht : IsTrans SessRow
          (fun a b => pdLE (sessKeyOf a) (sessKeyOf b)) :=
        ⟨fun _ _ _ h1 h2 => pdLE_trans h1 h2⟩
      haveI hto : IsTotal SessRow
          (fun a b => pdLE (sessKeyOf a) (sessKeyOf b)) :=
        ⟨fun a b => pdLE_total (sessKeyOf a) (sessKeyOf b)⟩
      exact List.sorted_insertionSort _ _
    have hfilter := hsorted.filter (fun x => decide (x.player_id = p))
    refine hfilter.imp_of_mem ?_
    intro a b ha hb hab
    have hap : a.player_id = p := of_decide_eq_true (List.mem_filter.mp ha).2
    have hbp : b.player_id = p := of_decide_eq_true (List.mem_filter.mp hb).2
    rcases hab with hlt | ⟨_, hle⟩
    · exfalso
      rw [show sessKeyOf a = (a.player_id, a.date) from rfl,
        show sessKeyOf b = (b.player_id, b.date) from rfl] at hlt
      simp only [hap, hbp] at hlt
      exact lt_irrefl _ hlt
    · exact hle
  · show prep_sessions c1raw = Except.ok c1tbl
    have hmid : prep_sessions c1raw = Except.ok
        [ { player_id := "P1", date := 1, minutes := some 60, sRPE := some 5,
            external_load := some 0, total_accels := some 0,
            jump_count := some 0, internal_load := some (60 * 5) },
          { player_id := "P1", date := 2, minutes := some 60, sRPE := some 8,
            external_load := some 0, total_accels := some 0,
            jump_count := some 0, internal_load := some (60 * 8) } ] := rfl
    rw [hmid]
    norm_num [c1tbl, SessRow.mk.injEq]
  · norm_num [c1tbl]
  · have e0 : windowSum [some 300] 7 1 = some 300 := by
      norm_num [windowSum, List.filterMap_cons, List.filterMap_nil, id_eq,
        List.sum_cons, List.sum_nil]
    have e1 : windowSum [some 300, some 480] 7 1 = some 780 := by
      norm_num [windowSum, List.filterMap_cons, List.filterMap_nil, id_eq,
        List.sum_cons, List.sum_nil]
    have hL : (compute_rolling_load c1tbl [7] 1).length = 2 := rfl
    have h0 : (0 : Nat) < (compute_rolling_load c1tbl [7] 1).length := by
      rw [hL]; omega
    have h1 : (1 : Nat) < (compute_rolling_load c1tbl [7] 1).length := by
      rw [hL]; omega
    have p0 : (((sortSessions c1tbl).take (0 + 1)).filter
        (fun x => x.player_id =
          ((sortSessions c1tbl).getD 0 dfltSess).player_id)).map
        (fun x => x.internal_load) = [some 300] := rfl
    have p1 : (((sortSessions c1tbl).take (1 + 1)).filter
        (fun x => x.player_id =
          ((sortSessions c1tbl).getD 1 dfltSess).player_id)).map
        (fun x => x.internal_load) = [some 300, some 480] := rfl
    apply List.ext_getElem
    · rfl
    · intro n hn1 hn2
      match n with
      | 0 =>
        rw [List.getElem_map, ← List.getD_eq_getElem _ dfltRoll h0,
          compute_rolling_load_lookup c1tbl [7] 1 7 0 (by decide) h0, p0, e0]
        rfl
      | 1 =>
        rw [List.getElem_map, ← List.getD_eq_getElem _ dfltRoll h1,
          compute_rolling_load_lookup c1tbl [7] 1 7 1 (by decide) h1, p1, e1]
        rfl

theorem claim_C1_witness :
    ((compute_rolling_load c1tbl [7] 1).getD 1 dfltRoll).2.lookup 7 =
      some (mostRecentSum (playerPrefixLoads (sortSessions c1tbl) 1) 7 1) :=
  claim_C1.1 c1tbl [7] 1 7 1 (by decide) (by decide) (by decide)

end AthleteLoad
